import Mathlib

/-!
Verification development for the student report portal client
(report submission view `src/app/student/submit/page.tsx` and
report list view `src/unnamed/part_000`).

The two page components are embedded shallowly: each React state cell
becomes a field of a state structure, each handler becomes a pure state
transformer, and each network interaction is parameterised by an explicit
outcome value (the parsed response body, or an exception marker).
Emitted toast notifications are accumulated in a `toasts` list and issued
network requests are counted in a `requests` field, so that framing
properties ("no notification fired", "no request issued") are equalities
on those fields.
-/

/-! ## Submission view: data model (`page.tsx`) -/

/-- Item status on the submission form: `"good" | "bad" | "flagged" | "pending"`. -/
inductive Status where
  | pending
  | good
  | bad
  | flagged
deriving DecidableEq, Repr

/-- `InspectionItem` from `page.tsx`. -/
structure InspectionItem where
  id : String
  name : String
  description : String
  status : Status
  comment : String
deriving DecidableEq, Repr

/-- A toast notification (`toastSuccess` / `toastError` calls). -/
structure Toast where
  isError : Bool
  title : String
  description : String
deriving DecidableEq, Repr

/-- The submission page's React state, plus the `toasts` and `requests`
observation fields. -/
structure SubmitState where
  items : List InspectionItem
  isLoading : Bool
  isSubmitting : Bool
  generalComment : String
  studentEmail : String
  toasts : List Toast
  requests : Nat
deriving DecidableEq, Repr

/-- A raw catalog entry as delivered by `GET /api/item/getAllItems`
(`description` may be absent; `none` models a missing field, `some ""`
an empty string, both falsy in the source's `item.description || ...`). -/
structure RawCatalogItem where
  id : String
  name : String
  description : Option String
deriving DecidableEq, Repr

/-- Outcome of the catalog fetch: a parsed JSON body (`success` flag and
`items` when it is an array), or an exception from `fetch`/`res.json()`. -/
inductive CatalogOutcome where
  | response (success : Bool) (items : Option (List RawCatalogItem))
  | throws
deriving DecidableEq, Repr

/-- Projection of a raw catalog entry into form state
(`status: "pending", comment: ""`, defaulted description). -/
def projectCatalogItem (r : RawCatalogItem) : InspectionItem :=
  { id := r.id
    name := r.name
    description :=
      match r.description with
      | none => "No description provided."
      | some d => if d = "" then "No description provided." else d
    status := Status.pending
    comment := "" }

/-- The hardcoded five-item fallback catalog from the `else` branch of
`fetchItems`. -/
def fallbackItems : List InspectionItem :=
  [ { id := "1", name := "Classroom Cleanliness"
      description := "Overall cleanliness and tidiness of the classroom"
      status := Status.pending, comment := "" }
  , { id := "2", name := "Furniture Condition"
      description := "Condition of desks, chairs, and other furniture"
      status := Status.pending, comment := "" }
  , { id := "3", name := "Electrical Safety"
      description := "Electrical outlets, switches, and wiring safety"
      status := Status.pending, comment := "" }
  , { id := "4", name := "Lighting System"
      description := "Functionality of lights and natural lighting"
      status := Status.pending, comment := "" }
  , { id := "5", name := "Ventilation"
      description := "Air quality and ventilation system"
      status := Status.pending, comment := "" } ]

/-- The toast fired in the `catch` branch of `fetchItems`. -/
def connectionErrorToast : Toast :=
  { isError := true
    title := "Connection Error"
    description := "Failed to load inspection items. Using demo data." }

/-- `fetchItems` from `page.tsx` (the mount effect): on a body with
`success` true and an array `items`, project them into state; on any other
parsed body, install the hardcoded fallback catalog; on an exception, fire
the connection-error toast. `isLoading` is cleared in the `finally` block. -/
def fetchItems (o : CatalogOutcome) (s : SubmitState) : SubmitState :=
  match o with
  | CatalogOutcome.response true (some raws) =>
      { s with items := raws.map projectCatalogItem, isLoading := false }
  | CatalogOutcome.response _ _ =>
      { s with items := fallbackItems, isLoading := false }
  | CatalogOutcome.throws =>
      { s with toasts := s.toasts ++ [connectionErrorToast], isLoading := false }

/-- The `stats` reduce from `page.tsx`: a running tally keyed by status
(`acc[item.status] = (acc[item.status] || 0) + 1`), with absent keys read
as `0`. -/
def statsFold (items : List InspectionItem) : Status → Nat :=
  items.foldl
    (fun acc item st => if st = item.status then acc st + 1 else acc st)
    (fun _ => 0)

/-- Count of the items currently carrying a given status. -/
def countStatus (items : List InspectionItem) (st : Status) : Nat :=
  (items.filter (fun i => i.status = st)).length

/-- The completion percentage rendered by the progress bar:
`Math.round(((items.length - (stats.pending || 0)) / items.length) * 100)`. -/
def completionPercent (items : List InspectionItem) : ℤ :=
  round ((((items.length : ℚ) - (statsFold items Status.pending : ℚ))
      / (items.length : ℚ)) * 100)

/-- The completion percentage as the spec words it: (total − pending) / total
expressed as a rounded percent, with the pending count taken directly from
the item list. -/
def specCompletionPercent (items : List InspectionItem) : ℤ :=
  round ((((items.length : ℚ) - (countStatus items Status.pending : ℚ))
      / (items.length : ℚ)) * 100)

/-- `handleStatusChange(itemId, status)`: map over the items, replacing the
`status` field of those whose `id` matches. -/
def handleStatusChange (itemId : String) (st : Status) (s : SubmitState) :
    SubmitState :=
  { s with items :=
      s.items.map (fun i => if i.id = itemId then { i with status := st } else i) }

/-- `handleCommentChange(itemId, comment)`: map over the items, replacing the
`comment` field of those whose `id` matches. -/
def handleCommentChange (itemId : String) (comment : String) (s : SubmitState) :
    SubmitState :=
  { s with items :=
      s.items.map (fun i => if i.id = itemId then { i with comment := comment } else i) }

/-- `handleMarkAllGood()`: set every status to `good`, keep comments, toast. -/
def handleMarkAllGood (s : SubmitState) : SubmitState :=
  { s with
      items := s.items.map (fun i => { i with status := Status.good })
      toasts := s.toasts ++
        [{ isError := false
           title := "All items marked as Good"
           description := "You can still modify individual items as needed." }] }

/-- `handleClearSelection()`: reset every item to pending/empty, toast. -/
def handleClearSelection (s : SubmitState) : SubmitState :=
  { s with
      items := s.items.map
        (fun i => { i with status := Status.pending, comment := "" })
      toasts := s.toasts ++
        [{ isError := false
           title := "Selection cleared"
           description := "All items have been reset to pending status." }] }

/-- JavaScript's `String.prototype.trim`: strip leading and trailing
whitespace. -/
def jsTrim (s : String) : String :=
  String.mk
    (((s.data.dropWhile Char.isWhitespace).reverse.dropWhile
        Char.isWhitespace).reverse)

/-- The items failing the comment check in `handleSubmit`:
`(status === "bad" || status === "flagged") && !item.comment.trim()`. -/
def needingComments (items : List InspectionItem) : List InspectionItem :=
  items.filter
    (fun i => (i.status = Status.bad ∨ i.status = Status.flagged)
      ∧ jsTrim i.comment = "")

/-- Outcome of the submit POST: a parsed body (`success`, optional
`message`), or a network/parse exception. -/
inductive SubmitOutcome where
  | reported (success : Bool) (message : Option String)
  | throws
deriving DecidableEq, Repr

/-- Toast for the pending-items validation failure. -/
def incompleteFormToast : Toast :=
  { isError := true
    title := "Incomplete Form"
    description := "Please mark all items before submitting!" }

/-- Toast for the missing-comments validation failure (`n` offending items). -/
def commentsRequiredToast (n : Nat) : Toast :=
  { isError := true
    title := "Comments Required"
    description := "Please add comments for " ++ toString n
      ++ " item(s) marked as Bad or Flagged." }

/-- Toast for the missing-identity validation failure. -/
def authErrorToast : Toast :=
  { isError := true
    title := "Authentication Error"
    description := "Student email not found. Please refresh the page." }

/-- Toast fired when the server reports success. -/
def submitSuccessToast : Toast :=
  { isError := false
    title := "Report Submitted Successfully!"
    description := "Your inspection report has been submitted for review" }

/-- Toast fired when the server reports failure
(`data.message || "Failed to submit report."`). -/
def submissionFailedToast (message : Option String) : Toast :=
  { isError := true
    title := "Submission Failed"
    description :=
      match message with
      | none => "Failed to submit report."
      | some m => if m = "" then "Failed to submit report." else m }

/-- Toast fired in the `catch` branch of the submit POST. -/
def networkErrorToast : Toast :=
  { isError := true
    title := "Network Error"
    description := "An error occurred while submitting your report. Please try again." }

/-- `handleSubmit()` from `page.tsx`. The three validation checks run in
order and short-circuit before any request; only when all pass is the POST
issued (counted in `requests`) and the outcome `o` consulted. -/
def handleSubmit (o : SubmitOutcome) (s : SubmitState) : SubmitState :=
  if s.items.any (fun i => i.status = Status.pending) then
    { s with toasts := s.toasts ++ [incompleteFormToast] }
  else if 0 < (needingComments s.items).length then
    { s with toasts := s.toasts ++
        [commentsRequiredToast (needingComments s.items).length] }
  else if s.studentEmail = "" then
    { s with toasts := s.toasts ++ [authErrorToast] }
  else
    match o with
    | SubmitOutcome.reported true _ =>
        { s with
            requests := s.requests + 1
            toasts := s.toasts ++ [submitSuccessToast]
            items := s.items.map
              (fun i => { i with status := Status.pending, comment := "" })
            generalComment := ""
            isSubmitting := false }
    | SubmitOutcome.reported false message =>
        { s with
            requests := s.requests + 1
            toasts := s.toasts ++ [submissionFailedToast message]
            isSubmitting := false }
    | SubmitOutcome.throws =>
        { s with
            requests := s.requests + 1
            toasts := s.toasts ++ [networkErrorToast]
            isSubmitting := false }

/-- The submission page's initial state (`useState` initialisers). -/
def initSubmitState : SubmitState :=
  { items := []
    isLoading := true
    isSubmitting := false
    generalComment := ""
    studentEmail := ""
    toasts := []
    requests := 0 }

/-! ## Report list view: data model (`src/unnamed/part_000`) -/

/-- `FilterType = 'all' | 'daily' | 'weekly' | 'monthly'`. -/
inductive FilterType where
  | all
  | daily
  | weekly
  | monthly
deriving DecidableEq, Repr

/-- Lifecycle status of a submitted report. -/
inductive ReportStatus where
  | pending
  | approved
  | rejected
deriving DecidableEq, Repr

/-- `Report` (summary row) from the report list view. -/
structure Report where
  id : String
  title : String
  submissionDate : String
  csApproved : Bool
  cpApproved : Bool
  status : ReportStatus
  classLabel : String
  generalComment : Option String
deriving DecidableEq, Repr

/-- `PaginationInfo` from the report list view. -/
structure PaginationInfo where
  currentPage : Nat
  totalPages : Nat
  totalReports : Nat
  hasNext : Bool
  hasPrev : Bool
deriving DecidableEq, Repr

/-- The default/empty pagination object the code resets to. -/
def defaultPagination : PaginationInfo :=
  { currentPage := 1
    totalPages := 1
    totalReports := 0
    hasNext := false
    hasPrev := false }

/-- The report list page's React state (the fields the list fetch touches),
plus the `toasts` observation list. -/
structure ListState where
  loading : Bool
  reports : List Report
  activeFilter : FilterType
  searchQuery : String
  studentEmail : String
  pagination : PaginationInfo
  toasts : List Toast
deriving DecidableEq, Repr

/-- `result.data` of the listing response: `reports` and `pagination` may
each be absent (the code substitutes `[]` / the default). -/
structure ReportsPayload where
  reports : Option (List Report)
  pagination : Option PaginationInfo
deriving DecidableEq, Repr

/-- A parsed listing response body: `success` flag, optional `data`,
optional `message`. -/
structure ReportsBody where
  success : Bool
  data : Option ReportsPayload
  message : Option String
deriving DecidableEq, Repr

/-- Outcome of one listing request: an HTTP status with a parsed body
(`none` when `response.json()` itself throws), or a transport exception. -/
inductive ReportsOutcome where
  | response (status : Nat) (body : Option ReportsBody)
  | throws
deriving DecidableEq, Repr

/-- The toast fired in the `catch` branch of `fetchReports`. -/
def loadFailToast : Toast :=
  { isError := true
    title := "Failed to Load Reports"
    description := "Unable to fetch reports. Please try again later." }

/-- `fetchReports` from the report list view. Guarded on the identity value;
404 resets silently; any other non-2xx status or parse/transport exception
resets and fires the load-failure toast; a 2xx body with `success` and
`data` installs the server's reports/pagination (with `[]`/default for
missing fields); any other 2xx body resets silently. -/
def fetchReports (o : ReportsOutcome) (s : ListState) : ListState :=
  if s.studentEmail = "" then s
  else
    match o with
    | ReportsOutcome.throws =>
        { s with loading := false, reports := [], pagination := defaultPagination
                 toasts := s.toasts ++ [loadFailToast] }
    | ReportsOutcome.response status body =>
        if status = 404 then
          { s with loading := false, reports := [], pagination := defaultPagination }
        else if 200 ≤ status ∧ status < 300 then
          match body with
          | none =>
              { s with loading := false, reports := [], pagination := defaultPagination
                       toasts := s.toasts ++ [loadFailToast] }
          | some b =>
              if b.success then
                match b.data with
                | some d =>
                    { s with loading := false
                             reports := d.reports.getD []
                             pagination := d.pagination.getD defaultPagination }
                | none =>
                    { s with loading := false, reports := []
                             pagination := defaultPagination }
              else
                { s with loading := false, reports := []
                         pagination := defaultPagination }
        else
          { s with loading := false, reports := [], pagination := defaultPagination
                   toasts := s.toasts ++ [loadFailToast] }

/-- `handlePageChange(newPage)`: re-fetch only when
`1 ≤ newPage ≤ pagination.totalPages`, otherwise a no-op. -/
def handlePageChange (newPage : Nat) (o : ReportsOutcome) (s : ListState) :
    ListState :=
  if 1 ≤ newPage ∧ newPage ≤ s.pagination.totalPages then fetchReports o s else s

/-- The report list page's initial state (`useState` initialisers). -/
def initListState : ListState :=
  { loading := true
    reports := []
    activeFilter := FilterType.all
    searchQuery := ""
    studentEmail := ""
    pagination := defaultPagination
    toasts := [] }

/-- The pagination invariant stated by the spec: current page within
`[1, totalPages]` when `totalPages ≥ 1`, and the derived flags agreeing
with the page bounds. -/
def paginationInvariant (p : PaginationInfo) : Bool :=
  (decide (1 ≤ p.totalPages) → decide (1 ≤ p.currentPage ∧ p.currentPage ≤ p.totalPages))
    && (p.hasPrev == decide (1 < p.currentPage))
    && (p.hasNext == decide (p.currentPage < p.totalPages))

/-- A listing outcome is pagination-well-formed when any pagination object
its body carries satisfies the invariant. -/
def outcomePaginationOK : ReportsOutcome → Bool
  | ReportsOutcome.response _ (some b) =>
      match b.data with
      | some d =>
          match d.pagination with
          | some p => paginationInvariant p
          | none => true
      | none => true
  | _ => true

/-! ## Report list view: the filter/search effect and its debounce timer

The effect with dependencies `[studentEmail, activeFilter, searchQuery]`
schedules `fetchReports(activeFilter, searchQuery, 1)` after
`searchQuery ? 500 : 0` milliseconds and clears the pending timer on every
dependency change. A run of dependency changes is modelled as a list of
timed events; a scheduled fetch fires unless a later event occurs strictly
before its fire time. -/

/-- The timer delay chosen by the effect: `searchQuery ? 500 : 0`. -/
def debounceDelay (searchQuery : String) : Nat :=
  if searchQuery = "" then 0 else 500

/-- The effect body including its identity gate: no fetch is scheduled while
the identity value is empty. -/
def effectDelay (studentEmail searchQuery : String) : Option Nat :=
  if studentEmail = "" then none else some (debounceDelay searchQuery)

/-- The listing request the effect schedules (always page 1). -/
structure FetchCall where
  filter : FilterType
  search : String
  page : Nat
deriving DecidableEq, Repr

/-- The call scheduled by the effect body: current filter and search, page 1. -/
def effectFetchCall (filter : FilterType) (search : String) : FetchCall :=
  { filter := filter, search := search, page := 1 }

/-- One dependency-change event: the time it occurs and the filter/search
values it leaves in state. -/
structure SearchEvent where
  time : Nat
  filter : FilterType
  search : String
deriving DecidableEq, Repr

/-- The fetches that actually fire for a run of dependency changes, with
their fire times: each event schedules its fetch at
`time + debounceDelay search`, and the next event clears the pending timer
if it arrives strictly before that. -/
def firedFetches : List SearchEvent → List (FetchCall × Nat)
  | [] => []
  | [e] => [(effectFetchCall e.filter e.search, e.time + debounceDelay e.search)]
  | e :: e' :: rest =>
      if e'.time < e.time + debounceDelay e.search then
        firedFetches (e' :: rest)
      else
        (effectFetchCall e.filter e.search, e.time + debounceDelay e.search)
          :: firedFetches (e' :: rest)

/-- Every consecutive pair of events is strictly within the pending timer's
window, so each earlier timer is cleared. -/
def withinWindow : List SearchEvent → Bool
  | e :: e' :: rest =>
      decide (e'.time < e.time + debounceDelay e.search) && withinWindow (e' :: rest)
  | _ => true

/-- The last event of a nonempty run `e :: es`. -/
def lastEvent (e : SearchEvent) : List SearchEvent → SearchEvent
  | [] => e
  | e' :: rest => lastEvent e' rest

/-! ## Concrete sample states used by witnesses and counterexamples -/

/-- A list view state after the identity value has loaded. -/
def sampleListState : ListState :=
  { initListState with studentEmail := "student@npc.ac.rw" }

/-- The five catalog items evaluated as in the spec's example scenario:
three good, one bad with comment "loose wire", one flagged with comment
"needs paint". -/
def exampleFiveItems : List InspectionItem :=
  [ { id := "1", name := "Classroom Cleanliness"
      description := "Overall cleanliness and tidiness of the classroom"
      status := Status.good, comment := "" }
  , { id := "2", name := "Furniture Condition"
      description := "Condition of desks, chairs, and other furniture"
      status := Status.good, comment := "" }
  , { id := "3", name := "Electrical Safety"
      description := "Electrical outlets, switches, and wiring safety"
      status := Status.good, comment := "" }
  , { id := "4", name := "Lighting System"
      description := "Functionality of lights and natural lighting"
      status := Status.bad, comment := "loose wire" }
  , { id := "5", name := "Ventilation"
      description := "Air quality and ventilation system"
      status := Status.flagged, comment := "needs paint" } ]

/-- A submission state that passes all three validation checks. -/
def readySubmitState : SubmitState :=
  { initSubmitState with
      items := exampleFiveItems
      isLoading := false
      studentEmail := "student@npc.ac.rw"
      generalComment := "All good overall" }

/-- A submission state with one item still pending and another marked bad
with an empty comment (the validation-ordering example of the spec). -/
def mixedSubmitState : SubmitState :=
  { initSubmitState with
      items :=
        [ { id := "1", name := "Classroom Cleanliness"
            description := "Overall cleanliness and tidiness of the classroom"
            status := Status.pending, comment := "" }
        , { id := "2", name := "Furniture Condition"
            description := "Condition of desks, chairs, and other furniture"
            status := Status.bad, comment := "" } ]
      isLoading := false
      studentEmail := "student@npc.ac.rw" }

/-- A 2xx body reporting failure: `success:false`. -/
def reportedFailureBody : ReportsBody :=
  { success := false, data := none, message := some "No reports found" }

/-- A server pagination object violating the pagination invariant. -/
def badServerPagination : PaginationInfo :=
  { currentPage := 7, totalPages := 2, totalReports := 10
    hasNext := true, hasPrev := false }

/-- A successful 2xx body carrying the malformed pagination object. -/
def badServerBody : ReportsBody :=
  { success := true
    data := some { reports := some [], pagination := some badServerPagination }
    message := none }

/-! ## Claims -/

/-- C1: the claim states that both catalog-fetch failure modes (exception,
and invalid body shape) substitute the five-item fallback catalog and fire
the connectivity warning. The code diverges from its own toast text: on an
exception it fires the warning toast — whose description says demo data is
being used — but leaves `items` empty, installing no fallback; and on an
invalid shape it installs the fallback but fires no notification at all.
This theorem evaluates both failure modes at the initial state. -/
theorem C1_catalog_failure_divergence :
    (fetchItems CatalogOutcome.throws initSubmitState).items = []
    ∧ (fetchItems CatalogOutcome.throws initSubmitState).items ≠ fallbackItems
    ∧ (fetchItems CatalogOutcome.throws initSubmitState).toasts
        = [connectionErrorToast]
    ∧ (fetchItems (CatalogOutcome.response false none) initSubmitState).items
        = fallbackItems
    ∧ (fetchItems (CatalogOutcome.response false none) initSubmitState).toasts
        = [] := by
  refine ⟨rfl, ?_, rfl, rfl, rfl⟩
  decide

/-- C2 counterexample: a 2xx response whose body has `success:false` leaves
the toast list untouched — no failure notification is shown, contrary to
the claim. -/
theorem C2_counterexample :
    (fetchReports (ReportsOutcome.response 200 (some reportedFailureBody))
        sampleListState).toasts = []
    ∧ (fetchReports (ReportsOutcome.response 200 (some reportedFailureBody))
        sampleListState).reports = []
    ∧ (fetchReports (ReportsOutcome.response 200 (some reportedFailureBody))
        sampleListState).pagination = defaultPagination := by
  decide

/-- C2 (amended): a 2xx response whose body has `success:false` resets the
reports and pagination to their empty/default values but fires no failure
notification — the outcome is silently normalized exactly like a 404. -/
theorem C2_reported_failure_silent (s : ListState) (status : Nat)
    (b : ReportsBody) (hmail : s.studentEmail ≠ "")
    (h2xx : 200 ≤ status ∧ status < 300) (hfail : b.success = false) :
    fetchReports (ReportsOutcome.response status (some b)) s
      = { s with loading := false, reports := []
                 pagination := defaultPagination } := by
  have h404 : status ≠ 404 := by omega
  simp [fetchReports, hmail, h404, h2xx, hfail]

/-- C2 witness: the amended theorem applied at a concrete state and body. -/
theorem C2_reported_failure_silent_witness :
    sampleListState.studentEmail ≠ ""
    ∧ (200 ≤ 200 ∧ 200 < 300)
    ∧ reportedFailureBody.success = false
    ∧ fetchReports (ReportsOutcome.response 200 (some reportedFailureBody))
        sampleListState
      = { sampleListState with loading := false, reports := []
                               pagination := defaultPagination } :=
  ⟨by decide, by decide, by decide,
    C2_reported_failure_silent sampleListState 200 reportedFailureBody
      (by decide) (by decide) (by decide)⟩

/-- C6: a 404 on the listing request resets the reports to the empty list
and the pagination to the default object, and fires no notification. -/
theorem C6_listing_404 (s : ListState) (body : Option ReportsBody)
    (h : s.studentEmail ≠ "") :
    (fetchReports (ReportsOutcome.response 404 body) s).reports = []
    ∧ (fetchReports (ReportsOutcome.response 404 body) s).pagination
        = { currentPage := 1, totalPages := 1, totalReports := 0
            hasNext := false, hasPrev := false }
    ∧ (fetchReports (ReportsOutcome.response 404 body) s).toasts = s.toasts := by
  refine ⟨?_, ?_, ?_⟩ <;> simp [fetchReports, h, defaultPagination]

/-- C6 witness: the 404 theorem applied at a concrete state. -/
theorem C6_listing_404_witness :
    sampleListState.studentEmail ≠ ""
    ∧ ((fetchReports (ReportsOutcome.response 404 none) sampleListState).reports = []
       ∧ (fetchReports (ReportsOutcome.response 404 none) sampleListState).pagination
           = { currentPage := 1, totalPages := 1, totalReports := 0
               hasNext := false, hasPrev := false }
       ∧ (fetchReports (ReportsOutcome.response 404 none) sampleListState).toasts
           = sampleListState.toasts) :=
  ⟨by decide, C6_listing_404 sampleListState none (by decide)⟩

/-- C3 counterexample: the effect's timer delay is computed from the search
string alone (`searchQuery ? 500 : 0`), so a filter change made at t=100
while the search box holds the non-empty string "wire" fires its re-fetch
only at t=600 — deferred by the 500ms debounce window, not immediately. -/
theorem C3_counterexample :
    firedFetches
        [ { time := 0, filter := FilterType.all, search := "wire" }
        , { time := 100, filter := FilterType.daily, search := "wire" } ]
      = [(effectFetchCall FilterType.daily "wire", 600)]
    ∧ (600 : Nat) ≠ 100 := by
  decide

/-- C3 (amended): changing the active filter schedules a re-fetch at page 1
with the current filter and search retained; the re-fetch is immediate
(zero delay) exactly when the current search string is empty, and is
deferred by the 500ms debounce window when a non-empty search string is
present — the delay depends on the search string, not on which input
changed. -/
theorem C3_filter_change_refetch (t : Nat) (f : FilterType) (search : String) :
    firedFetches [{ time := t, filter := f, search := search }]
      = [(effectFetchCall f search, t + debounceDelay search)]
    ∧ (effectFetchCall f search).page = 1
    ∧ debounceDelay "" = 0
    ∧ (search ≠ "" → debounceDelay search = 500) := by
  refine ⟨rfl, rfl, rfl, fun h => ?_⟩
  simp [debounceDelay, h]

/-- C3 witness: the amended theorem applied at a concrete filter-change
event with a non-empty search string. -/
theorem C3_filter_change_refetch_witness :
    ("wire" : String) ≠ ""
    ∧ firedFetches [{ time := 100, filter := FilterType.daily, search := "wire" }]
        = [(effectFetchCall FilterType.daily "wire", 100 + debounceDelay "wire")]
    ∧ debounceDelay "wire" = 500 :=
  ⟨by decide,
    (C3_filter_change_refetch 100 FilterType.daily "wire").1,
    (C3_filter_change_refetch 100 FilterType.daily "wire").2.2.2 (by decide)⟩

/-- C4: `handleSubmit` validates in a fixed short-circuit order — pending
items first ("Incomplete Form"), then missing comments on bad/flagged items
("Comments Required" with the offending count), then the missing identity
value ("Authentication Error") — and in each of the three failure cases the
whole result is the old state plus exactly that one error toast, so no
network request is issued (`requests` unchanged). With one pending item and
another bad item with an empty comment the reported error is exactly
"Incomplete Form". -/
theorem C4_validation_order (o : SubmitOutcome) (s : SubmitState) :
    (s.items.any (fun i => i.status = Status.pending) = true →
      handleSubmit o s = { s with toasts := s.toasts ++ [incompleteFormToast] })
    ∧ (s.items.any (fun i => i.status = Status.pending) = false →
      0 < (needingComments s.items).length →
      handleSubmit o s
        = { s with toasts := s.toasts ++
            [commentsRequiredToast (needingComments s.items).length] })
    ∧ (s.items.any (fun i => i.status = Status.pending) = false →
      (needingComments s.items).length = 0 →
      s.studentEmail = "" →
      handleSubmit o s = { s with toasts := s.toasts ++ [authErrorToast] })
    ∧ (s.items.any (fun i => i.status = Status.pending) = true
        ∨ 0 < (needingComments s.items).length
        ∨ s.studentEmail = "" →
      (handleSubmit o s).requests = s.requests)
    ∧ handleSubmit o mixedSubmitState
        = { mixedSubmitState with
            toasts := mixedSubmitState.toasts ++ [incompleteFormToast] } := by
  refine ⟨fun h1 => ?_, fun h1 h2 => ?_, fun h1 h2 h3 => ?_, fun h => ?_, ?_⟩
  · simp [handleSubmit, h1]
  · simp [handleSubmit, h1, h2, Nat.not_lt.mpr (Nat.le_of_lt_succ (Nat.lt_succ_of_lt h2))]
  · simp [handleSubmit, h1, h2, h3]
  · by_cases h1 : s.items.any (fun i => i.status = Status.pending) = true
    · simp [handleSubmit, h1]
    · by_cases h2 : 0 < (needingComments s.items).length
      · simp [handleSubmit, h1, h2]
      · have h3 : s.studentEmail = "" := by
          rcases h with h | h | h
          · exact absurd h h1
          · exact absurd h h2
          · exact h
        simp [handleSubmit, h1, h2, h3]
  · have hp : mixedSubmitState.items.any (fun i => i.status = Status.pending)
        = true := by decide
    simp [handleSubmit, hp]

/-- C4 witness: the first validation branch applied at the concrete mixed
state (one pending item, one bad item with an empty comment). -/
theorem C4_validation_order_witness :
    mixedSubmitState.items.any (fun i => i.status = Status.pending) = true
    ∧ handleSubmit (SubmitOutcome.reported true none) mixedSubmitState
        = { mixedSubmitState with
            toasts := mixedSubmitState.toasts ++ [incompleteFormToast] } :=
  ⟨by decide,
    (C4_validation_order (SubmitOutcome.reported true none) mixedSubmitState).1
      (by decide)⟩

/-- C5: once validation passes, a server-reported success resets every item
to pending with an empty comment and clears the general comment; a
server-reported failure or a network exception appends exactly one error
toast and leaves the item list and the general comment unchanged. -/
theorem C5_post_validation (s : SubmitState) (message : Option String)
    (h1 : s.items.any (fun i => i.status = Status.pending) = false)
    (h2 : (needingComments s.items).length = 0)
    (h3 : s.studentEmail ≠ "") :
    ((handleSubmit (SubmitOutcome.reported true message) s).items
        = s.items.map (fun i => { i with status := Status.pending, comment := "" })
      ∧ (handleSubmit (SubmitOutcome.reported true message) s).generalComment = "")
    ∧ (∀ o, o = SubmitOutcome.reported false message ∨ o = SubmitOutcome.throws →
        (handleSubmit o s).items = s.items
        ∧ (handleSubmit o s).generalComment = s.generalComment
        ∧ ∃ t, (handleSubmit o s).toasts = s.toasts ++ [t] ∧ t.isError = true) := by
  constructor
  · constructor <;> simp [handleSubmit, h1, h2, h3]
  · rintro o (rfl | rfl)
    · exact ⟨by simp [handleSubmit, h1, h2, h3],
        by simp [handleSubmit, h1, h2, h3],
        submissionFailedToast message, by simp [handleSubmit, h1, h2, h3], rfl⟩
    · exact ⟨by simp [handleSubmit, h1, h2, h3],
        by simp [handleSubmit, h1, h2, h3],
        networkErrorToast, by simp [handleSubmit, h1, h2, h3], rfl⟩

/-- C5 witness: the theorem applied at the ready (fully evaluated and
commented) submission state. -/
theorem C5_post_validation_witness :
    readySubmitState.items.any (fun i => i.status = Status.pending) = false
    ∧ (needingComments readySubmitState.items).length = 0
    ∧ readySubmitState.studentEmail ≠ ""
    ∧ (handleSubmit (SubmitOutcome.reported true none) readySubmitState).items
        = readySubmitState.items.map
            (fun i => { i with status := Status.pending, comment := "" })
    ∧ (handleSubmit SubmitOutcome.throws readySubmitState).items
        = readySubmitState.items :=
  ⟨by decide, by decide, by decide,
    (C5_post_validation readySubmitState none (by decide) (by decide)
        (by decide)).1.1,
    ((C5_post_validation readySubmitState none (by decide) (by decide)
        (by decide)).2 SubmitOutcome.throws (Or.inr rfl)).1⟩

/-- Helper for C7: a run of dependency changes whose events all carry
non-empty search strings and stay strictly within each pending timer's
window fires exactly one fetch, for the last event, 500ms after it. -/
theorem firedFetches_withinWindow (es : List SearchEvent) :
    ∀ e : SearchEvent, (∀ x ∈ e :: es, x.search ≠ "") →
      withinWindow (e :: es) = true →
      firedFetches (e :: es)
        = [(effectFetchCall (lastEvent e es).filter (lastEvent e es).search,
            (lastEvent e es).time + 500)] := by
  induction es with
  | nil =>
      intro e hne _
      have h := hne e (by simp)
      simp [firedFetches, lastEvent, debounceDelay, h]
  | cons e' rest ih =>
      intro e hne hwin
      have hw : e'.time < e.time + debounceDelay e.search
          ∧ withinWindow (e' :: rest) = true := by
        simpa [withinWindow] using hwin
      rw [firedFetches, if_pos hw.1, lastEvent]
      exact ih e' (fun x hx => hne x (List.mem_cons_of_mem e hx)) hw.2

/-- C7: search fetching is debounced — every event in a run of rapid
dependency changes carrying non-empty search strings (each change arriving
strictly within the 500ms window of the previous pending timer) clears the
previous timer, so exactly one fetch fires, for the final value typed,
500ms after the last change; and a cleared (empty) query is fetched with
zero delay. -/
theorem C7_debounce (e : SearchEvent) (es : List SearchEvent)
    (hne : ∀ x ∈ e :: es, x.search ≠ "")
    (hwin : withinWindow (e :: es) = true) :
    firedFetches (e :: es)
      = [(effectFetchCall (lastEvent e es).filter (lastEvent e es).search,
          (lastEvent e es).time + 500)]
    ∧ debounceDelay "" = 0 :=
  ⟨firedFetches_withinWindow es e hne hwin, rfl⟩

/-- C7 witness: three keystrokes 200ms apart produce one fetch for the
final text, 500ms after the last keystroke. -/
theorem C7_debounce_witness :
    (∀ x ∈ ([ { time := 0, filter := FilterType.all, search := "w" }
            , { time := 200, filter := FilterType.all, search := "wi" }
            , { time := 400, filter := FilterType.all, search := "wire" } ]
          : List SearchEvent), x.search ≠ "")
    ∧ withinWindow
        [ { time := 0, filter := FilterType.all, search := "w" }
        , { time := 200, filter := FilterType.all, search := "wi" }
        , { time := 400, filter := FilterType.all, search := "wire" } ] = true
    ∧ (firedFetches
        [ { time := 0, filter := FilterType.all, search := "w" }
        , { time := 200, filter := FilterType.all, search := "wi" }
        , { time := 400, filter := FilterType.all, search := "wire" } ]
          = [(effectFetchCall FilterType.all "wire", 900)]
       ∧ debounceDelay "" = 0) :=
  ⟨by decide, by decide,
    C7_debounce { time := 0, filter := FilterType.all, search := "w" }
      [ { time := 200, filter := FilterType.all, search := "wi" }
      , { time := 400, filter := FilterType.all, search := "wire" } ]
      (by decide) (by decide)⟩

/-- Helper for C8: the `stats` fold with an arbitrary accumulator adds the
per-status counts of the list to the accumulator. -/
theorem statsFold_aux (items : List InspectionItem) (acc : Status → Nat)
    (st : Status) :
    items.foldl (fun a item s => if s = item.status then a s + 1 else a s)
        acc st
      = acc st + countStatus items st := by
  induction items generalizing acc with
  | nil => simp [countStatus]
  | cons i t ih =>
      rw [List.foldl_cons, ih]
      by_cases h : st = i.status
      · simp only [if_pos h, countStatus, List.filter_cons, ← h]
        simp
        omega
      · have h' : ¬ (i.status = st) := fun hh => h hh.symm
        simp only [if_neg h, countStatus, List.filter_cons]
        simp [h']

/-- C8: the derived statistics are recomputed from the current item state —
the render-time fold yields exactly the count of items carrying each
status — and the rendered completion percentage is the rounded percent of
(total − pending) / total; on the five-item example with three good, one
bad and one flagged item it is 100%. -/
theorem C8_stats_completion :
    (∀ items st, statsFold items st = countStatus items st)
    ∧ (∀ items, completionPercent items = specCompletionPercent items)
    ∧ completionPercent exampleFiveItems = 100 := by
  have key : ∀ items st, statsFold items st = countStatus items st := by
    intro items st
    simpa [statsFold] using statsFold_aux items (fun _ => 0) st
  refine ⟨key, fun items => ?_, ?_⟩
  · rw [completionPercent, specCompletionPercent, key]
  · have h1 : statsFold exampleFiveItems Status.pending = 0 := by
      rw [key]; decide
    have h2 : exampleFiveItems.length = 5 := rfl
    rw [completionPercent, h1, h2]
    norm_num [round_eq]

/-- C9 counterexample: the success path installs the server's pagination
object verbatim, so a 2xx success body carrying an inconsistent pagination
object (current page 7 of 2 total pages, flags disagreeing with the
bounds) leaves the state violating the claimed invariant. -/
theorem C9_counterexample :
    paginationInvariant
        ((fetchReports (ReportsOutcome.response 200 (some badServerBody))
            sampleListState).pagination)
      = false := by
  decide

/-- C9 (amended): the pagination invariant (current page within
[1, totalPages] when totalPages ≥ 1, has-prev/has-next agreeing with the
page bounds) holds for the initial state and is preserved by every fetch
outcome and page change, provided any pagination object installed from a
server body itself satisfies the invariant; the reset/404/failure paths
re-establish it unconditionally. -/
theorem C9_pagination_invariant (s : ListState) (o : ReportsOutcome)
    (newPage : Nat)
    (hs : paginationInvariant s.pagination = true)
    (ho : outcomePaginationOK o = true) :
    paginationInvariant initListState.pagination = true
    ∧ paginationInvariant (fetchReports o s).pagination = true
    ∧ paginationInvariant (handlePageChange newPage o s).pagination = true := by
  have hdef : paginationInvariant defaultPagination = true := by decide
  have hfetch : paginationInvariant (fetchReports o s).pagination = true := by
    by_cases hmail : s.studentEmail = ""
    · simpa [fetchReports, hmail] using hs
    · cases o with
      | throws => simp [fetchReports, hmail, hdef]
      | response status body =>
          by_cases h404 : status = 404
          · simp [fetchReports, hmail, h404, hdef]
          · by_cases h2xx : 200 ≤ status ∧ status < 300
            · cases body with
              | none => simp [fetchReports, hmail, h404, h2xx, hdef]
              | some b =>
                  by_cases hsucc : b.success = true
                  · cases hd : b.data with
                    | none =>
                        simp [fetchReports, hmail, h404, h2xx, hsucc, hd, hdef]
                    | some d =>
                        cases hp : d.pagination with
                        | none =>
                            simp [fetchReports, hmail, h404, h2xx, hsucc, hd,
                              hp, hdef]
                        | some p =>
                            have hpinv : paginationInvariant p = true := by
                              simpa [outcomePaginationOK, hd, hp] using ho
                            simp [fetchReports, hmail, h404, h2xx, hsucc, hd,
                              hp, hpinv]
                  · have hsucc' : b.success = false :=
                      Bool.eq_false_iff.mpr hsucc
                    simp [fetchReports, hmail, h404, h2xx, hsucc', hdef]
            · simp [fetchReports, hmail, h404, h2xx, hdef]
  refine ⟨by decide, hfetch, ?_⟩
  rw [handlePageChange]
  split
  · exact hfetch
  · exact hs

/-- C9 witness: the amended theorem applied at a concrete state and a 404
outcome. -/
theorem C9_pagination_invariant_witness :
    paginationInvariant sampleListState.pagination = true
    ∧ outcomePaginationOK (ReportsOutcome.response 404 none) = true
    ∧ paginationInvariant
        (fetchReports (ReportsOutcome.response 404 none)
          sampleListState).pagination = true :=
  ⟨by decide, by decide,
    (C9_pagination_invariant sampleListState (ReportsOutcome.response 404 none)
      1 (by decide) (by decide)).2.1⟩

/-- C10: `handleStatusChange` and `handleCommentChange` are purely local —
they issue no request and fire no toast, every position of the item list
keeps its identity, name and description, exactly the addressed field of
the items whose identifier matches is replaced (the other mutable field and
all non-matching items are untouched), and the list is unchanged when no
item carries the identifier. -/
theorem C10_local_mutation (itemId : String) (st : Status) (c : String)
    (s : SubmitState) :
    ((handleStatusChange itemId st s).requests = s.requests
      ∧ (handleStatusChange itemId st s).toasts = s.toasts
      ∧ (handleCommentChange itemId c s).requests = s.requests
      ∧ (handleCommentChange itemId c s).toasts = s.toasts)
    ∧ (∀ (j : Nat) (i : InspectionItem), s.items[j]? = some i →
        ∃ i', (handleStatusChange itemId st s).items[j]? = some i'
          ∧ i'.id = i.id ∧ i'.name = i.name ∧ i'.description = i.description
          ∧ i'.comment = i.comment
          ∧ (i.id = itemId → i'.status = st)
          ∧ (i.id ≠ itemId → i'.status = i.status))
    ∧ (∀ (j : Nat) (i : InspectionItem), s.items[j]? = some i →
        ∃ i', (handleCommentChange itemId c s).items[j]? = some i'
          ∧ i'.id = i.id ∧ i'.name = i.name ∧ i'.description = i.description
          ∧ i'.status = i.status
          ∧ (i.id = itemId → i'.comment = c)
          ∧ (i.id ≠ itemId → i'.comment = i.comment))
    ∧ ((∀ i ∈ s.items, i.id ≠ itemId) →
        (handleStatusChange itemId st s).items = s.items
        ∧ (handleCommentChange itemId c s).items = s.items) := by
  refine ⟨⟨rfl, rfl, rfl, rfl⟩, ?_, ?_, ?_⟩
  · intro j i hj
    refine ⟨if i.id = itemId then { i with status := st } else i, ?_, ?_⟩
    · rw [handleStatusChange]
      simp only [List.getElem?_map, hj, Option.map_some']
    · by_cases h : i.id = itemId <;> simp [h]
  · intro j i hj
    refine ⟨if i.id = itemId then { i with comment := c } else i, ?_, ?_⟩
    · rw [handleCommentChange]
      simp only [List.getElem?_map, hj, Option.map_some']
    · by_cases h : i.id = itemId <;> simp [h]
  · intro h
    constructor
    · rw [handleStatusChange]
      show s.items.map _ = s.items
      conv_rhs => rw [← List.map_id s.items]
      exact List.map_congr_left (fun i hi => by simp [h i hi])
    · rw [handleCommentChange]
      show s.items.map _ = s.items
      conv_rhs => rw [← List.map_id s.items]
      exact List.map_congr_left (fun i hi => by simp [h i hi])

/-- C10 witness: with an identifier carried by no item, both handlers leave
the list unchanged. -/
theorem C10_local_mutation_witness :
    (∀ i ∈ readySubmitState.items, i.id ≠ "99")
    ∧ ((handleStatusChange "99" Status.good readySubmitState).items
        = readySubmitState.items
      ∧ (handleCommentChange "99" "fixed" readySubmitState).items
        = readySubmitState.items) :=
  ⟨by decide,
    (C10_local_mutation "99" Status.good "fixed" readySubmitState).2.2.2
      (by decide)⟩
